import Mathlib

/-!
Shallow embedding of the S3 storage backend (src/storage/backend/s3/s3.go of
drone-cache) and proofs about its construction, Get, Put and Exists operations.

Modelling conventions:
- `time.Time` and `time.Duration` are modelled as `Int` (nanoseconds); the Go
  zero value of `time.Time` is modelled as `0`, which is what `expiresAt`
  holds when no TTL was configured.
- `time.Now()` is an input `now : Int` to `New`; `time.ParseDuration` is an
  input function `pd : String -> Except String Int` (it is Go standard
  library code, external to this repository).
- The remote store is external: the outcomes of the S3 calls (upload result,
  lifecycle-configuration result, HEAD result, GetObject/copy result) are
  inputs to the embedded operations, and the operations return the list of
  S3 calls they issued together with their Go return values.
- Go `log` side effects are returned as a `List LogEvent`.
-/

namespace DroneCacheS3

/-- Credentials installed into the `aws.Config`: either
`credentials.AnonymousCredentials` or `credentials.NewStaticCredentials`. -/
inductive Credentials where
  | anonymous
  | staticCreds (key secret : String)
  deriving DecidableEq, Repr

/-- The fields of the `aws.Config` value built by `New` that the spec talks
about. `LogDebug` models `conf.WithLogLevel(aws.LogDebugWithHTTPBody)`. -/
structure AWSConfig where
  Region : String
  Endpoint : String
  DisableSSL : Bool
  S3ForcePathStyle : Bool
  Credentials : Credentials
  LogDebug : Bool
  deriving DecidableEq, Repr

/-- The `Config` consumed by `New` (endpoint, region, path-style flag,
credential pair, bucket, ACL, encryption, TTL duration string). -/
structure Config where
  Endpoint : String
  Region : String
  PathStyle : Bool
  Key : String
  Secret : String
  Bucket : String
  ACL : String
  Encryption : String
  TTL : String
  deriving DecidableEq, Repr

/-- Log lines emitted through the `log.Logger` during `New`. -/
inductive LogEvent where
  | warn (msg : String)
  | debug (msg : String)
  deriving DecidableEq, Repr

/-- The warning logged when no static credential pair is supplied. -/
def anonWarnMsg : String :=
  "aws key and/or Secret not provided (falling back to anonymous credentials)"

/-- The `Backend` struct: bucket, acl, encryption, the configured client
(modelled by the `aws.Config` it was built from) and `expiresAt`. -/
structure Backend where
  bucket : String
  acl : String
  encryption : String
  client : AWSConfig
  expiresAt : Int
  deriving DecidableEq, Repr

/-- Embedding of `New(l, c, debug)`. Returns the log lines emitted and
either the constructed `*Backend` or the error from `time.ParseDuration`.
`pd` stands for `time.ParseDuration`, `now` for `time.Now()`. -/
def New (pd : String → Except String Int) (now : Int) (c : Config)
    (debug : Bool) : List LogEvent × Except String Backend :=
  let conf0 : AWSConfig :=
    { Region := c.Region
      Endpoint := c.Endpoint
      -- DisableSSL: aws.Bool(!strings.HasPrefix(c.Endpoint, "https://")),
      -- with strings.HasPrefix embedded structurally on the character lists
      DisableSSL := !(List.isPrefixOf "https://".data c.Endpoint.data)
      S3ForcePathStyle := c.PathStyle
      Credentials := Credentials.anonymous
      LogDebug := false }
  let credStep : AWSConfig × List LogEvent :=
    if c.Key != "" && c.Secret != "" then
      ({ conf0 with Credentials := Credentials.staticCreds c.Key c.Secret }, [])
    else
      (conf0, [LogEvent.warn anonWarnMsg])
  let logs : List LogEvent := credStep.2 ++ [LogEvent.debug "s3 backend"]
  let conf : AWSConfig :=
    if debug then { credStep.1 with LogDebug := true } else credStep.1
  if c.TTL != "" then
    match pd c.TTL with
    | Except.error e => (logs, Except.error e)
    | Except.ok duration =>
        (logs, Except.ok
          { bucket := c.Bucket
            acl := c.ACL
            encryption := c.Encryption
            client := conf
            expiresAt := now + duration })
  else
    (logs, Except.ok
      { bucket := c.Bucket
        acl := c.ACL
        encryption := c.Encryption
        client := conf
        expiresAt := 0 })

/-! ## Get -/

/-- Outcome of the goroutine driving the transfer in `Get`: the
`GetObjectWithContext` call fails, the `io.Copy` into the sink fails, or the
whole transfer completes (the goroutine then closes `errCh` without sending,
so the receive yields `nil`). -/
inductive FetchOutcome where
  | success
  | getErr (e : String)
  | copyErr (e : String)
  deriving DecidableEq, Repr

/-- Which arm of the `select` in `Get` resolves first: the transfer
goroutine result on `errCh`, or the cancellation signal `ctx.Done()`. -/
inductive RaceWinner where
  | transfer
  | cancel
  deriving DecidableEq, Repr

/-- Embedding of the `select` at the end of `Get`: given the transfer
outcome, the race winner and `ctx.Err()`, return the error `Get` returns
(`none` models a `nil` error). -/
def GetSelect (fetch : FetchOutcome) (winner : RaceWinner)
    (ctxErr : String) : Option String :=
  match winner with
  | RaceWinner.cancel => some ctxErr
  | RaceWinner.transfer =>
    match fetch with
    | FetchOutcome.success => none
    | FetchOutcome.getErr e => some ("get the object, " ++ e)
    | FetchOutcome.copyErr e => some ("copy the object, " ++ e)

/-! ## Put -/

/-- The `s3manager.UploadInput` built by `Put`: the `ServerSideEncryption`
field is set only when `b.encryption` is non-empty. -/
structure UploadInput where
  Bucket : String
  Key : String
  ACL : String
  ServerSideEncryption : Option String
  deriving DecidableEq, Repr

/-- One lifecycle rule: `FilterKey` models `Filter.Prefix` (the key scope of
the rule) and `ExpirationDate` models `Expiration.Date` (`&b.expiresAt`). -/
structure LifecycleRule where
  FilterKey : String
  ExpirationDate : Int
  deriving DecidableEq, Repr

/-- The S3 calls `Put` issues, in order. -/
inductive S3Call where
  | upload (inp : UploadInput)
  | putBucketLifecycleConfiguration (bucket : String) (rules : List LifecycleRule)
  deriving DecidableEq, Repr

/-- Remote store state: objects present (key, content) and the bucket's
current lifecycle configuration (replaced wholesale by the
`PutBucketLifecycleConfiguration` call). -/
structure StoreState where
  objects : List (String × String)
  lifecycleRules : List LifecycleRule
  deriving DecidableEq, Repr

/-- Embedding of `Put(ctx, p, r)`. `content` is the bytes of the reader,
`uploadErr`/`lifecycleErr` are the outcomes of the two remote calls
(`none` = success). Returns the calls issued, the resulting store state and
the Go error returned (`none` models `nil`). Note the source issues the
lifecycle call unconditionally after a successful upload - there is no
check of `b.expiresAt`, despite the comment in the source saying the TTL
flag is checked. -/
def Put (b : Backend) (p : String) (content : String)
    (uploadErr : Option String) (lifecycleErr : Option String)
    (s : StoreState) : List S3Call × StoreState × Option String :=
  let inp : UploadInput :=
    { Bucket := b.bucket
      Key := p
      ACL := b.acl
      ServerSideEncryption :=
        if b.encryption != "" then some b.encryption else none }
  match uploadErr with
  | some e => ([S3Call.upload inp], s, some ("put the object, " ++ e))
  | none =>
    let s1 : StoreState := { s with objects := (p, content) :: s.objects }
    let rule : LifecycleRule := { FilterKey := p, ExpirationDate := b.expiresAt }
    let calls : List S3Call :=
      [S3Call.upload inp,
       S3Call.putBucketLifecycleConfiguration b.bucket [rule]]
    match lifecycleErr with
    | some e => (calls, s1, some ("put the object, " ++ e))
    | none => (calls, { s1 with lifecycleRules := [rule] }, none)

/-! ## Exists -/

/-- `s3.ErrCodeNoSuchKey`. -/
def ErrCodeNoSuchKey : String := "NoSuchKey"

/-- The error returned by `HeadObjectWithContext` when it fails: either a
value implementing `awserr.Error` (carrying a code), or a plain Go error for
which the type assertion `err.(awserr.Error)` fails. -/
inductive HeadProbeError where
  | awsCoded (code : String) (msg : String)
  | plain (msg : String)
  deriving DecidableEq, Repr

/-- Result of the HEAD probe: success carries `out.ETag`, a `*string` that
is `none` when the response had no ETag header. -/
inductive HeadResult where
  | ok (etag : Option String)
  | err (e : HeadProbeError)
  deriving DecidableEq, Repr

/-- What `Exists` does: return a `(bool, error)` pair, or panic at runtime
(nil-interface method call or nil-pointer dereference). -/
inductive ExistsOutcome where
  | ret (found : Bool) (err : Option String)
  | panicked (reason : String)
  deriving DecidableEq, Repr

/-- Embedding of `Exists(ctx, p)` given the HEAD probe result. The guard in
the source is `ok && awsErr.Code() == s3.ErrCodeNoSuchKey || awsErr.Code() == "NotFound"`,
which Go parses as `(ok && awsErr.Code() == NoSuchKey) || awsErr.Code() == "NotFound"`:
when the type assertion fails (`ok = false`, `awsErr = nil`) the right
operand still calls `Code()` on the nil interface value and Go panics.
On success the source dereferences `*out.ETag` without a nil check. -/
def Exists (b : Backend) (p : String) (head : HeadResult) : ExistsOutcome :=
  let inp : UploadInput :=
    { Bucket := b.bucket, Key := p, ACL := "", ServerSideEncryption := none }
  match head with
  | HeadResult.err (HeadProbeError.awsCoded code msg) =>
      -- here ok = true, so the condition is code == NoSuchKey || code == "NotFound"
      if code == ErrCodeNoSuchKey || code == "NotFound" then
        ExistsOutcome.ret false none
      else
        ExistsOutcome.ret false (some ("head the object, " ++ msg))
  | HeadResult.err (HeadProbeError.plain _) =>
      -- ok = false: the || right operand calls Code() on a nil interface
      ExistsOutcome.panicked
        "runtime error: invalid memory address or nil pointer dereference"
  | HeadResult.ok none =>
      -- *out.ETag dereferences a nil pointer
      ExistsOutcome.panicked
        "runtime error: invalid memory address or nil pointer dereference"
  | HeadResult.ok (some etag) =>
      let _ := inp
      ExistsOutcome.ret (etag != "") none

/-! ## Sample concrete values used by evidence and witness theorems -/

/-- A `ParseDuration` model that accepts "24h" (86400e9 ns) and "1h"
(3600e9 ns) and rejects everything else with the Go error text shape. -/
def pdSample : String → Except String Int := fun s =>
  if s = "24h" then Except.ok 86400000000000
  else if s = "1h" then Except.ok 3600000000000
  else Except.error ("time: invalid duration " ++ s)

/-- A configuration with no TTL configured. -/
def cfgNoTTL : Config :=
  { Endpoint := "http://minio:9000"
    Region := "eu-west-1"
    PathStyle := true
    Key := "AKIAEXAMPLE"
    Secret := "SECRETEXAMPLE"
    Bucket := "drone-cache-bucket"
    ACL := "private"
    Encryption := ""
    TTL := "" }

/-- The same configuration with TTL = "24h". -/
def cfgTTL24h : Config := { cfgNoTTL with TTL := "24h" }

/-- The same configuration with an unparsable TTL. -/
def cfgBadTTL : Config := { cfgNoTTL with TTL := "one-day" }

/-- The same configuration with no credential pair. -/
def cfgNoCreds : Config := { cfgNoTTL with Key := "", Secret := "" }

/-- A concrete backend used as the receiver of `Exists` evidence. -/
def sampleBackend : Backend :=
  { bucket := "drone-cache-bucket"
    acl := "private"
    encryption := ""
    client :=
      { Region := "eu-west-1"
        Endpoint := "http://minio:9000"
        DisableSSL := true
        S3ForcePathStyle := true
        Credentials := Credentials.staticCreds "AKIAEXAMPLE" "SECRETEXAMPLE"
        LogDebug := false }
    expiresAt := 0 }

/-- The empty store. -/
def emptyStore : StoreState := { objects := [], lifecycleRules := [] }

/-- The backend produced by `New pdSample 500 cfgTTL24h false`. -/
def backend24h : Backend := { sampleBackend with expiresAt := 500 + 86400000000000 }

end DroneCacheS3

namespace DroneCacheS3

/-! ## Theorems -/

/-- C1: the claim says the bucket-lifecycle-configuration update is skipped
when no TTL was configured; the code issues it unconditionally after every
successful upload. Evidence: a backend constructed with TTL = "" (so
`expiresAt` is the zero value 0) still issues the
`PutBucketLifecycleConfiguration` call on `Put`, with the zero expiration
date. -/
theorem c1_lifecycle_issued_without_ttl :
    Except.map
      (fun b => (Put b "proj/master/archive.tar" "bytes" none none emptyStore).1)
      (New pdSample 12345 cfgNoTTL false).2
    = Except.ok
        [S3Call.upload
          { Bucket := "drone-cache-bucket"
            Key := "proj/master/archive.tar"
            ACL := "private"
            ServerSideEncryption := none },
         S3Call.putBucketLifecycleConfiguration "drone-cache-bucket"
           [{ FilterKey := "proj/master/archive.tar", ExpirationDate := 0 }]] := by
  rfl

/-- Helper: for any construction whose TTL is empty or parses, `New`
succeeds, its log lines are the credential-dependent warning followed by the
debug line, the installed credentials are static exactly when both key and
secret are non-empty, and `DisableSSL` is the negation of the endpoint
having the "https://" scheme. -/
theorem New_ok_parts (pd : String → Except String Int) (now : Int)
    (c : Config) (dbg : Bool) (d : Int)
    (httl : c.TTL = "" ∨ pd c.TTL = Except.ok d) :
    (New pd now c dbg).1 =
      (if c.Key != "" && c.Secret != "" then [] else [LogEvent.warn anonWarnMsg])
        ++ [LogEvent.debug "s3 backend"] ∧
    Except.map (fun b => b.client.Credentials) (New pd now c dbg).2 =
      Except.ok (if c.Key != "" && c.Secret != "" then
        Credentials.staticCreds c.Key c.Secret else Credentials.anonymous) ∧
    Except.map (fun b => b.client.DisableSSL) (New pd now c dbg).2 =
      Except.ok (!(List.isPrefixOf "https://".data c.Endpoint.data)) := by
  by_cases hTTL : c.TTL = ""
  · have hbne : (c.TTL != "") = false := by simp [hTTL]
    cases hcs : (c.Key != "" && c.Secret != "") <;> cases dbg <;>
      simp [New, hbne, hcs, Except.map]
  · have hbne : (c.TTL != "") = true := bne_iff_ne.mpr hTTL
    rcases httl with h | h
    · exact absurd h hTTL
    · cases hcs : (c.Key != "" && c.Secret != "") <;> cases dbg <;>
        simp [New, hbne, h, hcs, Except.map]

/-- C2: probe failures carrying an AWS error code are classified as the
claim states (NoSuchKey/NotFound yield `(false, nil)`, any other code
yields `(false, non-nil error wrapping the cause)`), but a probe failure
that does not implement the AWS error interface makes `Exists` panic
instead of returning `(false, non-nil error)`: the parenthesisation of the
guard calls `Code()` on a nil interface value. -/
theorem c2_other_failures_panic_instead_of_error :
    Exists sampleBackend "octocat/mykey"
        (HeadResult.err (HeadProbeError.awsCoded "NoSuchKey"
          "NoSuchKey: The specified key does not exist."))
      = ExistsOutcome.ret false none ∧
    Exists sampleBackend "octocat/mykey"
        (HeadResult.err (HeadProbeError.awsCoded "NotFound" "NotFound: Not Found"))
      = ExistsOutcome.ret false none ∧
    Exists sampleBackend "octocat/mykey"
        (HeadResult.err (HeadProbeError.awsCoded "AccessDenied"
          "AccessDenied: Access Denied"))
      = ExistsOutcome.ret false
          (some "head the object, AccessDenied: Access Denied") ∧
    Exists sampleBackend "octocat/mykey"
        (HeadResult.err (HeadProbeError.plain
          "dial tcp 10.0.0.1:443: connect: connection refused"))
      = ExistsOutcome.panicked
          "runtime error: invalid memory address or nil pointer dereference" := by
  exact ⟨rfl, rfl, rfl, rfl⟩

/-- C3: `Exists` is not total - it panics on both inputs the claim singles
out: a probe error that is not an AWS-coded error (nil-interface `Code()`
call), and a successful probe whose response has no ETag (nil-pointer
dereference of `*out.ETag`). -/
theorem c3_exists_panics :
    Exists sampleBackend "proj/feature/archive.tar" (HeadResult.ok none)
      = ExistsOutcome.panicked
          "runtime error: invalid memory address or nil pointer dereference" ∧
    Exists sampleBackend "proj/feature/archive.tar"
        (HeadResult.err (HeadProbeError.plain "unexpected EOF"))
      = ExistsOutcome.panicked
          "runtime error: invalid memory address or nil pointer dereference" := by
  exact ⟨rfl, rfl⟩

/-- Helper: when the TTL string is non-empty and parses to `d`, the
constructed backend's `expiresAt` is `now + d`. -/
theorem New_ttl_expiresAt (pd : String → Except String Int) (now : Int)
    (c : Config) (dbg : Bool) (d : Int)
    (h1 : c.TTL ≠ "") (hpd : pd c.TTL = Except.ok d) :
    Except.map Backend.expiresAt (New pd now c dbg).2 = Except.ok (now + d) := by
  have hbne : (c.TTL != "") = true := bne_iff_ne.mpr h1
  cases hcs : (c.Key != "" && c.Secret != "") <;> cases dbg <;>
    simp [New, hbne, hpd, hcs, Except.map]

/-- C4: when the TTL string parses to duration `d`, the constructed
backend's `expiresAt` equals construction time + `d`, and every later `Put`
(any key, any content, any store state, any lifecycle outcome) registers a
lifecycle rule carrying that same absolute date; `Put` takes no clock at
all, so no per-object store time enters the rule. -/
theorem c4_expiration_fixed_at_construction
    (pd : String → Except String Int) (now d : Int) (c : Config) (dbg : Bool)
    (b : Backend) (logs : List LogEvent)
    (p content : String) (le : Option String) (s : StoreState)
    (httl : c.TTL ≠ "") (hpd : pd c.TTL = Except.ok d)
    (hnew : New pd now c dbg = (logs, Except.ok b)) :
    b.expiresAt = now + d ∧
    S3Call.putBucketLifecycleConfiguration b.bucket
        [{ FilterKey := p, ExpirationDate := now + d }] ∈
      (Put b p content none le s).1 := by
  have h3 := New_ttl_expiresAt pd now c dbg d httl hpd
  have hsnd : (New pd now c dbg).2 = Except.ok b := by rw [hnew]
  rw [hsnd] at h3
  simp only [Except.map, Except.ok.injEq] at h3
  refine ⟨h3, ?_⟩
  cases le <;> simp [Put, h3]

/-- C4 witness: a concrete construction with TTL = "24h" at time 500. -/
theorem c4_witness :
    backend24h.expiresAt = 500 + 86400000000000 ∧
    S3Call.putBucketLifecycleConfiguration backend24h.bucket
        [{ FilterKey := "artifact/1.tar", ExpirationDate := 500 + 86400000000000 }] ∈
      (Put backend24h "artifact/1.tar" "payload" none none emptyStore).1 :=
  c4_expiration_fixed_at_construction pdSample 500 86400000000000 cfgTTL24h false
    backend24h [LogEvent.debug "s3 backend"] "artifact/1.tar" "payload" none
    emptyStore (by decide) (by rfl) (by rfl)

/-- C5: a successful HEAD probe whose ETag is present but empty is
classified as non-existence, `(false, nil)`; a successful probe with a
non-empty ETag yields `(true, nil)`. -/
theorem c5_empty_etag_is_absence (b : Backend) (p t : String) (ht : t ≠ "") :
    Exists b p (HeadResult.ok (some "")) = ExistsOutcome.ret false none ∧
    Exists b p (HeadResult.ok (some t)) = ExistsOutcome.ret true none := by
  refine ⟨rfl, ?_⟩
  have hbt : (t != "") = true := bne_iff_ne.mpr ht
  simp [Exists, hbt]

/-- C5 witness: concrete probes against the sample backend. -/
theorem c5_witness :
    ("d41d8cd98f00b204e9800998ecf8427e" : String) ≠ "" ∧
    (Exists sampleBackend "proj/master/archive.tar" (HeadResult.ok (some ""))
        = ExistsOutcome.ret false none ∧
      Exists sampleBackend "proj/master/archive.tar"
          (HeadResult.ok (some "d41d8cd98f00b204e9800998ecf8427e"))
        = ExistsOutcome.ret true none) :=
  ⟨by decide,
   c5_empty_etag_is_absence sampleBackend "proj/master/archive.tar"
     "d41d8cd98f00b204e9800998ecf8427e" (by decide)⟩

/-- C6: the select in `Get` yields exactly one of the four outcomes,
determined by whichever side of the race resolves first: the cancellation
error when cancellation wins; nil on a completed transfer; a wrapped fetch
error; or a wrapped copy error. The four cases are mutually exclusive since
they are indexed by distinct constructors of the race winner and the
transfer outcome. -/
theorem c6_get_outcomes (fetch : FetchOutcome) (winner : RaceWinner)
    (ctxErr : String) :
    (winner = RaceWinner.cancel ∧ GetSelect fetch winner ctxErr = some ctxErr) ∨
    (winner = RaceWinner.transfer ∧ fetch = FetchOutcome.success ∧
      GetSelect fetch winner ctxErr = none) ∨
    (winner = RaceWinner.transfer ∧ ∃ e, fetch = FetchOutcome.getErr e ∧
      GetSelect fetch winner ctxErr = some ("get the object, " ++ e)) ∨
    (winner = RaceWinner.transfer ∧ ∃ e, fetch = FetchOutcome.copyErr e ∧
      GetSelect fetch winner ctxErr = some ("copy the object, " ++ e)) := by
  cases winner <;> cases fetch <;> simp [GetSelect]

/-- C7: when the upload succeeds and the lifecycle registration fails,
`Put` returns a non-nil error wrapping the lifecycle failure's cause, and
the store still holds the uploaded object on top of everything it held
before - nothing is rolled back or deleted. -/
theorem c7_lifecycle_failure_keeps_object (b : Backend) (p content e : String)
    (s : StoreState) :
    (Put b p content none (some e) s).2.2 = some ("put the object, " ++ e) ∧
    (Put b p content none (some e) s).2.1.objects = (p, content) :: s.objects := by
  exact ⟨rfl, rfl⟩

/-- C8: a non-empty TTL string that fails to parse makes `New` return the
parse error and no backend; an empty TTL string makes `New` succeed with
`expiresAt` left at the zero value, and the parser is never consulted (the
result is the same for any two parse functions). -/
theorem c8_ttl_parse (pd pdA pdB : String → Except String Int) (now : Int)
    (c c0 : Config) (dbg : Bool) (msg : String)
    (h1 : c.TTL ≠ "") (hpd : pd c.TTL = Except.error msg) (h0 : c0.TTL = "") :
    (New pd now c dbg).2 = Except.error msg ∧
    Except.map Backend.expiresAt (New pdA now c0 dbg).2 = Except.ok 0 ∧
    New pdA now c0 dbg = New pdB now c0 dbg := by
  have hbne : (c.TTL != "") = true := bne_iff_ne.mpr h1
  have hbne0 : (c0.TTL != "") = false := by simp [h0]
  refine ⟨?_, ?_, ?_⟩
  · simp [New, hbne, hpd]
  · cases hcs : (c0.Key != "" && c0.Secret != "") <;> cases dbg <;>
      simp [New, hbne0, hcs, Except.map]
  · simp [New, hbne0]

/-- C8 witness: TTL = "one-day" fails construction with the parse error;
TTL = "" succeeds with `expiresAt = 0` independently of the parser. -/
theorem c8_witness :
    (cfgBadTTL.TTL ≠ "" ∧
      pdSample cfgBadTTL.TTL = Except.error "time: invalid duration one-day" ∧
      cfgNoTTL.TTL = "") ∧
    ((New pdSample 500 cfgBadTTL false).2 =
        Except.error "time: invalid duration one-day" ∧
      Except.map Backend.expiresAt (New pdSample 500 cfgNoTTL false).2 =
        Except.ok 0 ∧
      New pdSample 500 cfgNoTTL false =
        New (fun s => Except.error s) 500 cfgNoTTL false) :=
  ⟨⟨by decide, by rfl, rfl⟩,
   c8_ttl_parse pdSample pdSample (fun s => Except.error s) 500 cfgBadTTL
     cfgNoTTL false "time: invalid duration one-day" (by decide) (by rfl) rfl⟩

/-- C9: a construction without a full credential pair (and an otherwise
well-formed TTL) succeeds with anonymous credentials installed and emits
the warning log line; a construction with both key and secret non-empty
installs static credentials and emits no warning. -/
theorem c9_anonymous_fallback (pd : String → Except String Int) (now : Int)
    (c c2 : Config) (dbg : Bool) (d d2 : Int)
    (hcred : ¬(c.Key ≠ "" ∧ c.Secret ≠ ""))
    (httl : c.TTL = "" ∨ pd c.TTL = Except.ok d)
    (hcred2 : c2.Key ≠ "" ∧ c2.Secret ≠ "")
    (httl2 : c2.TTL = "" ∨ pd c2.TTL = Except.ok d2) :
    Except.map (fun b => b.client.Credentials) (New pd now c dbg).2 =
      Except.ok Credentials.anonymous ∧
    LogEvent.warn anonWarnMsg ∈ (New pd now c dbg).1 ∧
    Except.map (fun b => b.client.Credentials) (New pd now c2 dbg).2 =
      Except.ok (Credentials.staticCreds c2.Key c2.Secret) ∧
    LogEvent.warn anonWarnMsg ∉ (New pd now c2 dbg).1 := by
  have hb : (c.Key != "" && c.Secret != "") = false := by
    cases h : (c.Key != "" && c.Secret != "")
    · rfl
    · exact absurd (by simpa [Bool.and_eq_true, bne_iff_ne] using h) hcred
  have hb2 : (c2.Key != "" && c2.Secret != "") = true := by
    simp only [Bool.and_eq_true, bne_iff_ne]
    exact hcred2
  obtain ⟨l1, cr1, -⟩ := New_ok_parts pd now c dbg d httl
  obtain ⟨l2, cr2, -⟩ := New_ok_parts pd now c2 dbg d2 httl2
  simp only [hb, Bool.false_eq_true, if_false, List.nil_append,
    List.cons_append] at l1 cr1
  simp only [hb2, if_true, List.nil_append] at l2 cr2
  refine ⟨cr1, ?_, cr2, ?_⟩
  · rw [l1]; simp
  · rw [l2]; simp

/-- C9 witness: construction without credentials versus with both key and
secret, at TTL = "". -/
theorem c9_witness :
    (¬(cfgNoCreds.Key ≠ "" ∧ cfgNoCreds.Secret ≠ "") ∧ cfgNoCreds.TTL = "" ∧
      (cfgNoTTL.Key ≠ "" ∧ cfgNoTTL.Secret ≠ "") ∧ cfgNoTTL.TTL = "") ∧
    (Except.map (fun b => b.client.Credentials) (New pdSample 500 cfgNoCreds false).2 =
        Except.ok Credentials.anonymous ∧
      LogEvent.warn anonWarnMsg ∈ (New pdSample 500 cfgNoCreds false).1 ∧
      Except.map (fun b => b.client.Credentials) (New pdSample 500 cfgNoTTL false).2 =
        Except.ok (Credentials.staticCreds cfgNoTTL.Key cfgNoTTL.Secret) ∧
      LogEvent.warn anonWarnMsg ∉ (New pdSample 500 cfgNoTTL false).1) :=
  ⟨⟨by decide, rfl, ⟨by decide, by decide⟩, rfl⟩,
   c9_anonymous_fallback pdSample 500 cfgNoCreds cfgNoTTL false 0 0
     (by decide) (Or.inl rfl) ⟨by decide, by decide⟩ (Or.inl rfl)⟩

/-- C10: for every successful construction, the client has SSL enabled
(`DisableSSL = false`) exactly when the endpoint string begins with
"https://"; every other endpoint, including schemeless ones, gets SSL
disabled. -/
theorem c10_ssl_from_endpoint_scheme (pd : String → Except String Int)
    (now : Int) (c : Config) (dbg : Bool) (d : Int) (b : Backend)
    (httl : c.TTL = "" ∨ pd c.TTL = Except.ok d)
    (hok : (New pd now c dbg).2 = Except.ok b) :
    (b.client.DisableSSL = false ↔
      List.isPrefixOf "https://".data c.Endpoint.data = true) := by
  obtain ⟨-, -, hssl⟩ := New_ok_parts pd now c dbg d httl
  rw [hok] at hssl
  simp only [Except.map, Except.ok.injEq] at hssl
  rw [hssl]
  cases h : List.isPrefixOf "https://".data c.Endpoint.data <;> simp

/-- C10 witness: the sample construction with the schemeful-but-plain
endpoint "http://minio:9000" has SSL disabled. -/
theorem c10_witness :
    cfgNoTTL.TTL = "" ∧
    (New pdSample 500 cfgNoTTL false).2 = Except.ok sampleBackend ∧
    (sampleBackend.client.DisableSSL = false ↔
      List.isPrefixOf "https://".data cfgNoTTL.Endpoint.data = true) :=
  ⟨rfl, by rfl,
   c10_ssl_from_endpoint_scheme pdSample 500 cfgNoTTL false 0 sampleBackend
     (Or.inl rfl) (by rfl)⟩

end DroneCacheS3
